import Mathlib

/-!
Verification of `controller/nvk8sapi/nvvalidatewebhookcfg/nvvalidatewebhookcfg.go`
(package `admission` of the neuvector controller).

The Go source is shallowly embedded: pure computations become Lean functions,
the process-wide maps (`admCaBundle`, `svcLabelKeys`) become an explicit state
record, and the external resource store (`global.ORCH`) is abstracted as
environment functions supplied to each operation.  String constants that live
in other packages of the repository (`resource`, `share`, `api`) are given
concrete distinct values; only their distinctness is ever used.
-/

namespace NvAdmission

/-! ## Constants (from the source, lines 62-88, and external packages) -/

/-- Source line 77: operation name for creating the k8s resource. -/
def K8sResOpCreate : String := "create"

/-- Source line 78: operation name for updating the k8s resource. -/
def K8sResOpUpdate : String := "update"

/-- Source line 79: operation name for deleting the k8s resource. -/
def K8sResOpDelete : String := "delete"

/-- Source line 83 (iota block): poll loop outcome codes. -/
def TestSucceeded : Nat := 0

/-- Source line 84. -/
def TestFailedAtRead : Nat := 1

/-- Source line 85. -/
def TestFailedAtWrite : Nat := 2

/-- Source line 86: budget exhausted without a matching echo. -/
def TestFailed : Nat := 3

/-- Source line 87: poll aborted by a shutdown signal. -/
def TestAborted : Nat := 4

/-- Modelled from the spec: `resource.NvAdmValidatingName`, the name of the
generic validating-webhook configuration resource (external constant; only its
distinctness from the CRD resource name matters). -/
def NvAdmValidatingName : String := "neuvector-validating-admission-webhook"

/-- Modelled from the spec: `resource.NvCrdValidatingName`, the name of the
structured-resource (CRD) validating-webhook configuration resource. -/
def NvCrdValidatingName : String := "neuvector-validating-crd-webhook"

/-- Modelled from the spec: `resource.NvAdmValidatingWebhookName` (external
constant identifying the generic rule inside the configuration). -/
def NvAdmValidatingWebhookName : String :=
  "neuvector-validating-admission-webhook.neuvector.svc"

/-- Modelled from the spec: `resource.NvCrdValidatingWebhookName` (external
constant identifying the structured-resource rule). -/
def NvCrdValidatingWebhookName : String :=
  "neuvector-validating-crd-webhook.neuvector.svc"

/-- Modelled from the spec: `resource.NvStatusValidatingWebhookName` (external
constant identifying the status-probe rule). -/
def NvStatusValidatingWebhookName : String :=
  "neuvector-validating-status-webhook.neuvector.svc"

/-- Modelled from the spec: `resource.SideEffectNone`; the spec quotes the
side-effect annotation value "None". -/
def SideEffectNone : String := "None"

/-- Modelled from the spec: `resource.SideEffectSome`; the spec quotes "Some". -/
def SideEffectSome : String := "Some"

/-- Modelled from the spec: `resource.SideEffectNoneOnDryRun`; the spec quotes
"NoneOnDryRun". -/
def SideEffectNoneOnDryRun : String := "NoneOnDryRun"

/-- Modelled from the spec: `resource.NsSelectorKeySkipNV`, the namespace
exemption (skip) label key. -/
def NsSelectorKeySkipNV : String := "skip.neuvector"

/-- Modelled from the spec: `resource.NsSelectorKeyStatusNV`, the status label
key placed on the gate's own deployment namespace. -/
def NsSelectorKeyStatusNV : String := "status.neuvector"

/-- Modelled from the spec: `resource.NsSelectorKeyCtrlPlane`, the platform
control-plane label key. -/
def NsSelectorKeyCtrlPlane : String := "control-plane"

/-- Modelled from the spec: `resource.NsSelectorOpNotExist`, the "not exists"
label-selector operator. -/
def NsSelectorOpNotExist : String := "DoesNotExist"

/-- Modelled from the spec: `resource.NsSelectorOpExists`. -/
def NsSelectorOpExists : String := "Exists"

/-- Modelled from the spec: `resource.Ignore`, the "Ignore" failure policy. -/
def ResourceIgnore : String := "Ignore"

/-- Modelled from the spec: `share.AdmClientModeUrl`, the url addressing mode. -/
def AdmClientModeUrl : String := "url"

/-- Modelled from the spec: `share.AdmClientModeSvc`, the service-reference
addressing mode. -/
def AdmClientModeSvc : String := "service"

/-- Modelled from the spec: `resource.K8sApiVersionV1`. -/
def K8sApiVersionV1 : String := "v1"

/-- Modelled from the spec: `resource.K8sApiVersionV1Beta1`, the only review
protocol version accepted by this core. -/
def K8sApiVersionV1Beta1 : String := "v1beta1"

/-- Modelled from the spec: `resource.K8sApiVersionV1Beta2`. -/
def K8sApiVersionV1Beta2 : String := "v1beta2"

/-- Modelled from the spec: `resource.NvAdmSvcNamespace`, the gate's own
deployment namespace. -/
def NvAdmSvcNamespace : String := "neuvector"

/-! ## CABundleRegistry (source lines 90-91, 185-207)

The two process-wide maps `admCaBundle : map[string]string` and
`svcLabelKeys : map[string]*WebhookSvcLabelKey` become one explicit state
record.  A Go map lookup on a missing string key yields the empty string, so
`admCaBundle` is modelled as a total function defaulting to `""`. -/

/-- Source lines 38-41: the tag/echo label-key pair derived for a service. -/
structure WebhookSvcLabelKey where
  TagKey : String
  EchoKey : String
deriving DecidableEq

/-- The process-wide registry state: source lines 90-91. -/
structure AdmState where
  admCaBundle : String → String
  svcLabelKeys : String → Option WebhookSvcLabelKey

/-- Source lines 185-195, `SetCABundle`: unconditionally stores the bundle and
(re)derives the tag/echo label-key pair (`tag-<svc>` / `echo-<svc>`).
The md5 logging and the `GetK8sVersion` warm-up call have no modelled effect. -/
def SetCABundle (svcName : String) (caBundle : String) (s : AdmState) : AdmState :=
  { admCaBundle := fun n => if n == svcName then caBundle else s.admCaBundle n,
    svcLabelKeys := fun n =>
      if n == svcName then
        some { TagKey := "tag-" ++ svcName, EchoKey := "echo-" ++ svcName }
      else s.svcLabelKeys n }

/-- Source lines 197-207, `ResetCABundle`: stores the bundle only when the new
value is non-empty and differs from the stored value; returns whether a change
occurred.  The label-key map is not touched. -/
def ResetCABundle (svcName : String) (caBundle : String) (s : AdmState) :
    Bool × AdmState :=
  let newCert := caBundle
  let oldCert := s.admCaBundle svcName
  if newCert.length > 0 && oldCert != newCert then
    (true,
     { s with admCaBundle := fun n => if n == svcName then newCert else s.admCaBundle n })
  else
    (false, s)

/-! ## Side-effect expectation in the read (drift-detection) phase
(source lines 347-356 inside `isK8sConfiguredAsExpected`) -/

/-- Source lines 348-355: the expected side-effect annotation computed during
drift detection.  It depends only on the configuration resource's name and the
server version read from `resource.GetK8sVersion()`; the schema generation of
the fetched object (`useApiV1`) does not enter this computation. -/
def matchSideEffects (resName : String) (major minor : Int) : String :=
  if resName == NvCrdValidatingName then
    if major == 1 && minor ≥ 22 then SideEffectNoneOnDryRun
    else SideEffectSome
  else SideEffectNone

/-- Source line 356: the side-effect comparison, as the boolean guard
`k8sVersionMinor <= 11 || (k8sVersionMinor > 11 && wh.SideEffects != nil &&
*wh.SideEffects == sideEffects)`.  For minor ≤ 11 the check passes without
looking at the actual annotation. -/
def sideEffectCheckOk (minor : Int) (whSideEffects : Option String)
    (expected : String) : Bool :=
  decide (minor ≤ 11) ||
    (decide (minor > 11) &&
      (match whSideEffects with
       | some s => s == expected
       | none => false))

/-! ## GetValidateWebhookSvcInfo error classification (source lines 677-689) -/

/-- The two REST status codes selectable in the store-error branch of
`GetValidateWebhookSvcInfo`: `api.RESTErrWebhookSvcForAdmCtrl` (the default,
set at line 680) and `api.RESTErrNvPermission` (set at line 687).  The
external integer values are irrelevant; only which one is selected matters. -/
inductive WebhookSvcStatus where
  | admCtrlSvcErr
  | nvPermission
deriving DecidableEq

/-- Character-level occurrence test: `sub` occurs in `s` at position `i`.
Byte offsets in Go and character offsets here agree on positivity, which is
all the classification reads. -/
def matchesAt (s sub : List Char) (i : Nat) : Prop :=
  (s.drop i).take sub.length = sub

instance (s sub : List Char) (i : Nat) : Decidable (matchesAt s sub i) := by
  unfold matchesAt; infer_instance

/-- First occurrence position of `sub` in `s`, or `none`.  Mirrors the search
performed by Go's `strings.Index`. -/
def firstOccur (sub : List Char) : List Char → Option Nat
  | [] => if ([] : List Char).take sub.length = sub then some 0 else none
  | c :: t =>
    if (c :: t).take sub.length = sub then some 0
    else (firstOccur sub t).map (· + 1)

/-- Go's `strings.Index`: first occurrence position, or `-1` when absent. -/
def strIndex (s sub : String) : Int :=
  match firstOccur sub.data s.data with
  | some n => (n : Int)
  | none => -1

/-- Source lines 684-688: upon a store get failure with error text `errText`,
the returned status is `RESTErrNvPermission` exactly when
`strings.Index(errText, " 403 ") > 0 && strings.Index(errText, "forbidden") > 0`;
otherwise the default `RESTErrWebhookSvcForAdmCtrl` stands. -/
def getSvcErrStatus (errText : String) : WebhookSvcStatus :=
  if strIndex errText " 403 " > 0 && strIndex errText "forbidden" > 0 then
    .nvPermission
  else
    .admCtrlSvcErr

/-! ## NamespaceLabelEnforcer (source lines 95-98, 137-183, 768-807)

`VerifyK8sNs` builds a per-namespace desired-presence map over the three label
keys `NsSelectorKeySkipNV`, `NsSelectorKeyStatusNV`, `NsSelectorKeyCtrlPlane`
(a Go `map[string]*bool`: `&shouldExist` / `&shouldNotExist` / `nil`, with an
absent entry behaving like `nil`).  The keys are modelled as an inductive type
and a namespace's labels as their presence function; label keys other than
these three are never touched by the enforcer.  The policy inputs — the global
variables of lines 95-98, the external constants `resource.CtrlPlaneOpInWhExpr`,
`resource.NvAdmSvcNamespace`, and the external wildcard matcher
`share.EqualMatch` — are gathered into one policy record. -/

/-- The three namespace label keys handled by `VerifyK8sNs` (lines 145-153). -/
inductive NsLabelKey where
  | skipNV
  | statusNV
  | ctrlPlane
deriving DecidableEq

/-- Every key `VerifyK8sNs` can place in its `labelKeys` map. -/
def nsAllLabelKeys : List NsLabelKey := [.skipNV, .statusNV, .ctrlPlane]

/-- The fixed policy state consulted by `VerifyK8sNs`: the enabled flag, the
allowed-namespace sets (lines 95-97), whether the control-plane selector
semantics are "not-exists"-based (`resource.CtrlPlaneOpInWhExpr ==
resource.NsSelectorOpNotExist`, line 150), the gate's deployment namespace,
the shared label value (line 98), and the wildcard matcher `share.EqualMatch`
(external to this file). -/
structure NsPolicy where
  admCtrlEnabled : Bool
  ctrlPlaneOpIsNotExist : Bool
  defAllowedNamespaces : List String
  allowedNamespaces : List String
  allowedNamespacesWild : List String
  svcNamespace : String
  nsSelectorValue : String
  equalMatch : String → String → Bool

/-- Source lines 142-172: the desired presence of each label key for namespace
`nsName`.  `some true` is `&shouldExist`, `some false` is `&shouldNotExist`,
`none` covers both a `nil` map value and an absent map entry (the correction
loop skips both alike). -/
def desiredLabelKeys (p : NsPolicy) (nsName : String) : NsLabelKey → Option Bool
  | .skipNV =>
    if p.admCtrlEnabled then
      if p.allowedNamespaces.contains nsName then some true
      else if p.allowedNamespacesWild.any (fun w => p.equalMatch w nsName) then some true
      else some false
    else some false
  | .statusNV =>
    if p.admCtrlEnabled && p.svcNamespace == nsName then some true
    else some false
  | .ctrlPlane =>
    if p.admCtrlEnabled && p.ctrlPlaneOpIsNotExist then
      if p.defAllowedNamespaces.contains nsName then none
      else some false
    else none

/-- One key disagrees when its desired presence is non-nil and differs from
the actual presence (the test on source lines 176-177 and 782-788). -/
def nsKeyDisagrees (d : Option Bool) (present : Bool) : Bool :=
  match d with
  | some b => b != present
  | none => false

/-- Source lines 768-807, `workSingleK8sNsLabels`: re-read the namespace from
the store, add every missing must-exist key (with the shared label value) and
remove every present must-not-exist key, then issue a single update when any
change was made.  `stored` is the presence map the store read returns; the
label values are irrelevant to presence, so only presence is tracked.  Returns
the resulting presence map and the number of store writes issued. -/
def workSingleK8sNsLabels (d : NsLabelKey → Option Bool)
    (stored : NsLabelKey → Bool) : (NsLabelKey → Bool) × Nat :=
  let corrected : NsLabelKey → Bool := fun k =>
    match d k with
    | some b => b
    | none => stored k
  let needUpdate := nsAllLabelKeys.any fun k => nsKeyDisagrees (d k) (stored k)
  if needUpdate then (corrected, 1) else (stored, 0)

/-- Source lines 137-183, `VerifyK8sNs`: replace a nil label map by an empty
one (lines 138-140), compute the desired map, and — when any non-nil desired
presence disagrees with the actual presence — run the single-namespace
correction.  The store read inside the correction returns the same labels the
caller passed (the no-intervening-external-change premise of the spec).
Returns the resulting presence map and the number of store writes issued. -/
def VerifyK8sNs (p : NsPolicy) (nsName : String)
    (nsLabels : Option (NsLabelKey → Bool)) : (NsLabelKey → Bool) × Nat :=
  let labels : NsLabelKey → Bool :=
    match nsLabels with
    | none => fun _ => false
    | some m => m
  let d := desiredLabelKeys p nsName
  if nsAllLabelKeys.any (fun k => nsKeyDisagrees (d k) (labels k)) then
    workSingleK8sNsLabels d labels
  else
    (labels, 0)

/-! ## Write phase: `configK8sAdmCtrlValidateResource` (source lines 394-617)

The function builds the full list of webhook rules for the requested resource
and issues exactly one store mutation, except that it fails fast — before any
mutation — on an unsupported operation or on a rule whose service has no
trust bundle in the registry.  The store's response to a mutation is external
and is supplied as `storeResp`; the function returns the Go error result
together with the list of store mutations it issued. -/

/-- Modelled from the spec: `resource.NvAdmRegRuleSetting`, one entry of the
static per-rule-name operation/resource tables (`resource.AdmResForOpsSettings`
and friends), which live outside this source file.  The sets are modelled as
lists; `ToStringSlice` enumeration order is absorbed by the sort below. -/
structure NvAdmRegRuleSetting where
  Operations : List String
  ApiGroups : List String
  Resources : List String
  Scope : String
deriving DecidableEq

/-- Modelled from the spec: the three static per-rule-name tables consulted by
the switch on source lines 432-449 / 524-541 — external data of the
`resource` package. -/
structure NvOpResTables where
  admResForOpsSettings : List NvAdmRegRuleSetting
  crdResForOpsSettings : List NvAdmRegRuleSetting
  statusResForOpsSettings : List NvAdmRegRuleSetting

/-- Insertion step for lexicographic string sorting. -/
def insertSorted (x : String) : List String → List String
  | [] => [x]
  | y :: t => if x ≤ y then x :: y :: t else y :: insertSorted x t

/-- `sort.Strings` (source lines 472-473 and 559-560): lexicographic sort. -/
def sortStrings : List String → List String
  | [] => []
  | x :: t => insertSorted x (sortStrings t)

/-- A built `RuleWithOperations` (either API generation). -/
structure K8sRuleWithOperations where
  Operations : List String
  ApiGroups : List String
  ApiVersions : List String
  Resources : List String
  Scope : Option String
deriving DecidableEq

/-- A built validating webhook, covering the fields set on either schema
generation path (`apiv1.ValidatingWebhook` / `apiv1beta1.Webhook`); fields a
path does not set stay `none` / `""`. -/
structure K8sValidatingWebhook where
  Name : String
  CaBundle : String
  Url : Option String
  Service : Option (String × String × String)
  Rules : List K8sRuleWithOperations
  FailurePolicy : String
  AdmissionReviewVersions : Option (List String)
  MatchPolicy : Option String
  SideEffects : Option String
  TimeoutSeconds : Option Int
  NamespaceSelector : Option (String × String)
deriving DecidableEq

/-- Source lines 43-60: the desired-configuration input types. -/
structure ClientConfig where
  ClientMode : String
  ServiceName : String
  Path : String
  Port : Int
deriving DecidableEq

structure WebhookInfo where
  Name : String
  ClientConfig : ClientConfig
  FailurePolicy : String
  TimeoutSeconds : Int
deriving DecidableEq

structure ValidatingWebhookConfigInfo where
  Name : String
  WebhooksInfo : List WebhookInfo
deriving DecidableEq

/-- Source line 811 (`IsNsSelectorSupported`): the namespace-selector (and
rule scope) feature is available from server 1.14 on. -/
def IsNsSelectorSupported (major minor : Int) : Bool :=
  major == 1 && minor ≥ 14

/-- Source lines 432-449 / 524-541: the per-rule-name switch selecting the
operation/resource table, side-effect annotation, namespace-selector key and
operator, and failure policy.  `crdSideEffects` is the value the current
generation path assigns to the structured-resource rule (`NoneOnDryRun` on
the v1 path, `Some` on the v1beta1 path). -/
def ruleSwitch (tables : NvOpResTables) (crdSideEffects : String)
    (whInfo : WebhookInfo) :
    List NvAdmRegRuleSetting × String × String × String × String :=
  if whInfo.Name == NvAdmValidatingWebhookName then
    (tables.admResForOpsSettings, SideEffectNone,
     NsSelectorKeySkipNV, NsSelectorOpNotExist, whInfo.FailurePolicy)
  else if whInfo.Name == NvCrdValidatingWebhookName then
    (tables.crdResForOpsSettings, crdSideEffects, "", "", ResourceIgnore)
  else if whInfo.Name == NvStatusValidatingWebhookName then
    (tables.statusResForOpsSettings, SideEffectNone,
     NsSelectorKeyStatusNV, NsSelectorOpExists, ResourceIgnore)
  else
    ([], SideEffectNone, "", "", "")

/-- The `v1b1b2ApiVersions` list of source line 415. -/
def v1b1b2ApiVersions : List String :=
  [K8sApiVersionV1, K8sApiVersionV1Beta1, K8sApiVersionV1Beta2]

/-- Source lines 462-475 / 550-565: build one rule entry, sorting its
operation and resource lists; on the v1 path `scoped` is true, on the v1beta1
path scope is attached only when the feature is supported. -/
def buildRule (withScope : Bool) (opRes : NvAdmRegRuleSetting) : K8sRuleWithOperations :=
  { Operations := sortStrings opRes.Operations,
    ApiGroups := opRes.ApiGroups,
    ApiVersions := v1b1b2ApiVersions,
    Resources := sortStrings opRes.Resources,
    Scope := if withScope then some opRes.Scope else none }

/-- Source lines 422-497: build one webhook on the admissionregistration/v1
path (server ≥ 1.22). -/
def buildWebhookV1 (tables : NvOpResTables) (bundles : String → String)
    (whInfo : WebhookInfo) : K8sValidatingWebhook :=
  let svcName := whInfo.ClientConfig.ServiceName
  let (nvOpResources, sideEffects, nsSelectorKey, nsSelectorOp, failurePolicy) :=
    ruleSwitch tables SideEffectNoneOnDryRun whInfo
  { Name := whInfo.Name,
    CaBundle := bundles svcName,
    Url :=
      if whInfo.ClientConfig.ClientMode == AdmClientModeUrl then
        some ("https://" ++ svcName ++ "." ++ NvAdmSvcNamespace ++ ".svc:"
              ++ toString whInfo.ClientConfig.Port ++ whInfo.ClientConfig.Path)
      else none,
    Service :=
      if whInfo.ClientConfig.ClientMode == AdmClientModeUrl then none
      else some (NvAdmSvcNamespace, svcName, whInfo.ClientConfig.Path),
    Rules := nvOpResources.map (buildRule true),
    FailurePolicy := failurePolicy,
    AdmissionReviewVersions := some [K8sApiVersionV1Beta1],
    MatchPolicy := some "Exact",
    SideEffects := some sideEffects,
    TimeoutSeconds := some whInfo.TimeoutSeconds,
    NamespaceSelector :=
      if nsSelectorKey != "" && nsSelectorOp != "" then
        some (nsSelectorKey, nsSelectorOp)
      else none }

/-- Source lines 513-596: build one webhook on the admissionregistration/v1beta1
path (server < 1.22).  Scope and namespace selector are version-gated; the
side-effect annotation is set only for server 1.x with minor > 11. -/
def buildWebhookV1Beta1 (tables : NvOpResTables) (bundles : String → String)
    (major minor : Int) (whInfo : WebhookInfo) : K8sValidatingWebhook :=
  let svcName := whInfo.ClientConfig.ServiceName
  let (nvOpResources, sideEffects, nsSelectorKey, nsSelectorOp, failurePolicy) :=
    ruleSwitch tables SideEffectSome whInfo
  { Name := whInfo.Name,
    CaBundle := bundles svcName,
    Url :=
      if whInfo.ClientConfig.ClientMode == AdmClientModeUrl then
        some ("https://" ++ svcName ++ "." ++ NvAdmSvcNamespace ++ ".svc:"
              ++ toString whInfo.ClientConfig.Port ++ whInfo.ClientConfig.Path)
      else none,
    Service :=
      if whInfo.ClientConfig.ClientMode == AdmClientModeUrl then none
      else some (NvAdmSvcNamespace, svcName, whInfo.ClientConfig.Path),
    Rules := nvOpResources.map (buildRule (IsNsSelectorSupported major minor)),
    FailurePolicy := failurePolicy,
    AdmissionReviewVersions := none,
    MatchPolicy := none,
    SideEffects :=
      if major == 1 && minor > 11 then some sideEffects else none,
    TimeoutSeconds := none,
    NamespaceSelector :=
      if IsNsSelectorSupported major minor then
        if nsSelectorKey != "" && nsSelectorOp != "" then
          some (nsSelectorKey, nsSelectorOp)
        else none
      else none }

/-- The per-rule loop of either create/update path: fail fast with
"empty caBundle" at the first rule whose service has no bundle in the registry
(source lines 424-427 and 516-519), otherwise build every webhook. -/
def buildWebhooks (build : WebhookInfo → K8sValidatingWebhook)
    (bundles : String → String) :
    List WebhookInfo → Except String (List K8sValidatingWebhook)
  | [] => .ok []
  | whInfo :: rest =>
    if (bundles whInfo.ClientConfig.ServiceName).length = 0 then
      .error "empty caBundle"
    else
      match buildWebhooks build bundles rest with
      | .error e => .error e
      | .ok ws => .ok (build whInfo :: ws)

/-- A store mutation issued by the write phase: the resource name, the
optimistic-concurrency version token (updates only), the built webhooks, and
which API generation the mutation uses. -/
inductive StoreOp where
  | addResource (name : String) (webhooks : List K8sValidatingWebhook) (apiV1 : Bool)
  | updateResource (name : String) (resourceVersion : String)
      (webhooks : List K8sValidatingWebhook) (apiV1 : Bool)
  | deleteResource (name : String) (apiV1 : Bool)
deriving DecidableEq

/-- Source lines 394-617, `configK8sAdmCtrlValidateResource`: dispatch on the
operation; delete issues a bare delete by name; create/update build the full
webhook list (failing fast on a missing trust bundle) and issue one add or
one update carrying the version token; any other operation is the
"unsupported k8s resource operation" error.  `storeResp` is the external
store's response to a mutation.  Returns the Go error result and the list of
store mutations issued. -/
def configK8sAdmCtrlValidateResource (tables : NvOpResTables)
    (major minor : Int) (bundles : String → String)
    (storeResp : StoreOp → Option String)
    (op resVersion : String) (k8sResInfo : ValidatingWebhookConfigInfo) :
    Option String × List StoreOp :=
  if op == K8sResOpDelete then
    let sop := StoreOp.deleteResource k8sResInfo.Name (major == 1 && minor ≥ 22)
    (storeResp sop, [sop])
  else if op == K8sResOpCreate || op == K8sResOpUpdate then
    if major == 1 && minor ≥ 22 then
      match buildWebhooks (buildWebhookV1 tables bundles) bundles
          k8sResInfo.WebhooksInfo with
      | .error e => (some e, [])
      | .ok whs =>
        if op == K8sResOpCreate then
          let sop := StoreOp.addResource k8sResInfo.Name whs true
          (storeResp sop, [sop])
        else
          let sop := StoreOp.updateResource k8sResInfo.Name resVersion whs true
          (storeResp sop, [sop])
    else
      match buildWebhooks (buildWebhookV1Beta1 tables bundles major minor) bundles
          k8sResInfo.WebhooksInfo with
      | .error e => (some e, [])
      | .ok whs =>
        if op == K8sResOpCreate then
          let sop := StoreOp.addResource k8sResInfo.Name whs false
          (storeResp sop, [sop])
        else
          let sop := StoreOp.updateResource k8sResInfo.Name resVersion whs false
          (storeResp sop, [sop])
  else
    (some "unsupported k8s resource operation", [])

/-! ## Top-level convergence loop: `ConfigK8sAdmissionControl` (source 619-670)

Each attempt re-reads the cluster resource through
`isK8sConfiguredAsExpected`, whose result depends on the external store; the
read is therefore an environment function from the attempt number to its
result quadruple.  Likewise the apply step's outcome (the composition of
`configK8sAdmCtrlValidateResource` with the external store's response) is an
environment function from attempt number, operation, and version token to an
optional error.  The model additionally records the list of operations
applied, in order. -/

/-- Source lines 48-ish of `share.CLUSAdmCtrlState` as used here: only the
`Enable` flag and the (non-empty-checked) `Uri` field are read. -/
structure CLUSAdmCtrlState where
  Enable : Bool
  Uri : String
deriving DecidableEq

/-- The quadruple returned by `isK8sConfiguredAsExpected` (source line 216):
(found, matchedCfg, verRead, error). -/
structure AdmReadResult where
  k8sConfigured : Bool
  matchedCfg : Bool
  verRead : String
  err : Option String
deriving DecidableEq

/-- Source lines 645-656: the operation selected by the truth table over
{registered, policy-enabled, matched}; `""` when no branch assigns one. -/
def admCtrlSelectOp (enable : Bool) (r : AdmReadResult) : String :=
  if r.k8sConfigured && !enable then K8sResOpDelete
  else if enable then
    if !r.k8sConfigured then K8sResOpCreate
    else if !r.matchedCfg then K8sResOpUpdate
    else ""
  else ""

/-- The two early-skip returns of source lines 638-644, as one predicate:
either the read errored with nothing found and policy disabled, or the state
already agrees with the desired state (disabled and unregistered, or enabled,
registered and matched). -/
def admCtrlSkipEarly (enable : Bool) (r : AdmReadResult) : Bool :=
  (!r.k8sConfigured && !r.matchedCfg && !enable && r.err.isSome) ||
    ((!r.k8sConfigured && !enable) || (r.matchedCfg && r.k8sConfigured && enable))

/-- The truth table as the claim states it (for comparison with the code's
`admCtrlSelectOp`): registered and disabled → delete; enabled and not
registered → create; enabled, registered and not matched → update. -/
def claimTruthTableOp (enable registered matched : Bool) : String :=
  if registered && !enable then K8sResOpDelete
  else if enable && !registered then K8sResOpCreate
  else K8sResOpUpdate

/-- Source lines 635-665, the `for retry < 3` loop.  `fuel` is the number of
attempts left (3 at entry), `retry` the current attempt index, `lastErr` the
error carried from the previous iteration (returned when the budget is
exhausted).  Returns ((skip, error), operations applied in order). -/
def admCtrlLoop (enable : Bool) (read : Nat → AdmReadResult)
    (applyCfg : Nat → String → String → Option String) :
    Nat → Nat → Option String → (Bool × Option String) × List String
  | 0, _, lastErr => ((true, lastErr), [])
  | fuel + 1, retry, _ =>
    if admCtrlSkipEarly enable (read retry) then
      -- the two early returns of lines 638-644 both yield (true, nil)
      ((true, none), [])
    else if admCtrlSelectOp enable (read retry) != "" then
      match applyCfg retry (admCtrlSelectOp enable (read retry)) (read retry).verRead with
      | none => ((false, none), [admCtrlSelectOp enable (read retry)])
      | some e =>
        ((admCtrlLoop enable read applyCfg fuel (retry + 1) (some e)).1,
         admCtrlSelectOp enable (read retry) ::
           (admCtrlLoop enable read applyCfg fuel (retry + 1) (some e)).2)
    else
      admCtrlLoop enable read applyCfg fuel (retry + 1) (read retry).err

/-- Source lines 619-670, `ConfigK8sAdmissionControl`: a nil `ctrlState` or an
empty `Uri` short-circuits to (skip, nil); otherwise the bounded retry loop
runs with 3 attempts.  (The url-mode port-resolution pre-pass of lines 629-634
only rewrites rule ports, which the abstracted apply step absorbs.)  Returns
((skip, error), operations applied in order). -/
def ConfigK8sAdmissionControl (ctrlState : Option CLUSAdmCtrlState)
    (read : Nat → AdmReadResult)
    (applyCfg : Nat → String → String → Option String) :
    (Bool × Option String) × List String :=
  match ctrlState with
  | none => ((true, none), [])
  | some st =>
    if st.Uri == "" then ((true, none), [])
    else admCtrlLoop st.Enable read applyCfg 3 0 none

/-! ## ConnectivityProbe initiator poll loop (source lines 744-761)

After writing the fresh tag, `TestAdmWebhookConnection` polls once per ticker
second, up to 10 times, racing each tick against the shutdown-signal channel;
each iteration thus consumes one event.  A tick event carries the result of
`GetValidateWebhookSvcInfo`: the optional store error and the observed
tag/echo label values.  Returns the outcome code and the number of events
consumed. -/

/-- One event observed by a poll-loop iteration: either the ticker fires and
the service read yields (error, labelTag, labelEcho), or the shutdown signal
arrives first. -/
inductive PollEvent where
  | tick (err : Option String) (labelTag labelEcho : String)
  | sig
deriving DecidableEq

/-- Source lines 747-760: the poll loop body.  `i` is the loop counter and
`fuel` the remaining budget (10 at entry).  Success requires an error-free
read with both the tag label and the echo label equal to the written tag
(source line 751). -/
def testPollLoop (tag : String) (env : Nat → PollEvent) :
    Nat → Nat → Nat × Nat
  | _, 0 => (TestFailed, 0)
  | i, fuel + 1 =>
    match env i with
    | .sig => (TestAborted, 1)
    | .tick err labelTag labelEcho =>
      if err == none && labelTag == tag && labelEcho == tag then
        (TestSucceeded, 1)
      else
        ((testPollLoop tag env (i + 1) fuel).1,
         (testPollLoop tag env (i + 1) fuel).2 + 1)

/-- The initiator's poll phase: budget of 10 one-second polls (source line
747), starting at loop index 0. -/
def TestAdmWebhookPoll (tag : String) (env : Nat → PollEvent) : Nat × Nat :=
  testPollLoop tag env 0 10

/-! ## Concrete sample values used to instantiate the theorems -/

/-- An empty registry state: no bundles, no label-key pairs. -/
def emptyAdmState : AdmState := { admCaBundle := fun _ => "", svcLabelKeys := fun _ => none }

/-- Empty operation/resource tables. -/
def sampleTables : NvOpResTables := ⟨[], [], []⟩

/-- A one-rule desired configuration in service addressing mode. -/
def sampleWebhookInfo : WebhookInfo :=
  { Name := NvAdmValidatingWebhookName,
    ClientConfig :=
      { ClientMode := AdmClientModeSvc, ServiceName := "neuvector-svc-admission-webhook",
        Path := "/v1/validate", Port := 443 },
    FailurePolicy := "Fail",
    TimeoutSeconds := 30 }

/-- The desired configuration holding just `sampleWebhookInfo`. -/
def sampleResInfo : ValidatingWebhookConfigInfo :=
  { Name := NvAdmValidatingName, WebhooksInfo := [sampleWebhookInfo] }

/-- A sample policy state: enabled, gate namespace "nv", one exact allowed
namespace, no wildcards. -/
def sampleNsPolicy : NsPolicy :=
  { admCtrlEnabled := true, ctrlPlaneOpIsNotExist := true,
    defAllowedNamespaces := [], allowedNamespaces := ["allowed-ns"],
    allowedNamespacesWild := [], svcNamespace := "nv",
    nsSelectorValue := "enabled", equalMatch := fun _ _ => false }

/-- A read environment that always reports the resource absent. -/
def sampleAbsentRead : Nat → AdmReadResult := fun _ => ⟨false, false, "", none⟩

/-- An apply environment that always fails with the same error. -/
def sampleFailApply : Nat → String → String → Option String := fun _ _ _ => some "boom"

/-! ## Helper lemmas -/

/-- A string has positive length exactly when it is non-empty. -/
theorem string_length_pos (s : String) : 0 < s.length ↔ s ≠ "" := by
  cases s with
  | mk data => simp [String.length, List.length_pos, String.ext_iff]

/-- Occurrence at a shifted position steps over the head character. -/
theorem matchesAt_cons_succ (c : Char) (t sub : List Char) (i : Nat) :
    matchesAt (c :: t) sub (i + 1) ↔ matchesAt t sub i := by
  simp [matchesAt]

/-- `firstOccur` finds an occurrence exactly when one exists. -/
theorem firstOccur_isSome_iff (sub s : List Char) :
    (firstOccur sub s).isSome = true ↔ ∃ i, matchesAt s sub i := by
  induction s with
  | nil =>
    rw [firstOccur]
    split
    next hc =>
      simp only [Option.isSome_some, true_iff]
      exact ⟨0, hc⟩
    next hc =>
      simp only [Option.isSome_none, Bool.false_eq_true, false_iff, not_exists]
      intro i hi
      exact hc (by simpa [matchesAt] using hi)
  | cons c t ih =>
    rw [firstOccur]
    split
    next hc =>
      simp only [Option.isSome_some, true_iff]
      exact ⟨0, hc⟩
    next hc =>
      rw [Option.isSome_map', ih]
      constructor
      · rintro ⟨j, hj⟩
        exact ⟨j + 1, (matchesAt_cons_succ c t sub j).mpr hj⟩
      · rintro ⟨i, hi⟩
        cases i with
        | zero => exact absurd hi hc
        | succ j => exact ⟨j, (matchesAt_cons_succ c t sub j).mp hi⟩

/-- An occurrence at position 0 makes `firstOccur` return 0. -/
theorem firstOccur_zero_of_matchesAt (sub s : List Char) (h : matchesAt s sub 0) :
    firstOccur sub s = some 0 := by
  have h0 : s.take sub.length = sub := h
  cases s with
  | nil => simp [firstOccur, h0]
  | cons c t => simp [firstOccur, h0]

/-- `firstOccur` returning 0 exhibits an occurrence at position 0. -/
theorem matchesAt_of_firstOccur_zero (sub s : List Char)
    (h : firstOccur sub s = some 0) : matchesAt s sub 0 := by
  cases s with
  | nil =>
    rw [firstOccur] at h
    split at h
    next hc => exact hc
    next => simp at h
  | cons c t =>
    rw [firstOccur] at h
    split at h
    next hc => exact hc
    next =>
      cases ho : firstOccur sub t with
      | none => rw [ho] at h; simp at h
      | some j => rw [ho] at h; simp at h

/-- `strIndex` is positive exactly when the pattern occurs somewhere but not
at position 0 — the semantics of Go's `strings.Index(s, sub) > 0`. -/
theorem strIndex_pos_iff (s sub : String) :
    strIndex s sub > 0 ↔
      (∃ i, matchesAt s.data sub.data i) ∧ ¬ matchesAt s.data sub.data 0 := by
  unfold strIndex
  cases h : firstOccur sub.data s.data with
  | none =>
    have hno : ¬ ∃ i, matchesAt s.data sub.data i := by
      rw [← firstOccur_isSome_iff, h]
      simp
    simp [hno]
  | some n =>
    cases n with
    | zero =>
      have h0 := matchesAt_of_firstOccur_zero sub.data s.data h
      simp [h0]
    | succ m =>
      have hsome : ∃ i, matchesAt s.data sub.data i := by
        rw [← firstOccur_isSome_iff, h]
        simp
      have hnot0 : ¬ matchesAt s.data sub.data 0 := by
        intro hm
        have h0 := firstOccur_zero_of_matchesAt sub.data s.data hm
        rw [h] at h0
        simp at h0
      simp only [hsome, hnot0, not_false_iff, and_true, iff_true]
      exact_mod_cast Nat.succ_pos m

/-! ## Claim theorems -/

/-- C1 counterexample: in the read (drift-detection) phase the expected
side-effect annotation for the structured-resource (CRD) rule at server
version (1,15) is "Some", not "NoneOnDryRun" — and since `matchSideEffects`
does not take the schema generation as an input, this holds on the new
generation as well as the legacy one, refuting the claim's
"(1,15) + new generation → NoneOnDryRun". -/
theorem crdSideEffect_v1_15_counterexample :
    matchSideEffects NvCrdValidatingName 1 15 = SideEffectSome
    ∧ SideEffectSome ≠ SideEffectNoneOnDryRun := by
  constructor
  · decide
  · decide

/-- C1 (amended): in the read phase, the expected side-effect annotation for
the structured-resource (CRD) rule is "NoneOnDryRun" for server (1,22) and
"Some" for server (1,15) regardless of schema generation (the expected value
depends only on rule identity and server version); for server (1,10)
(minor ≤ 11) the side-effect check passes unconditionally and so can never
cause a mismatch. -/
theorem crdSideEffect_expected_values :
    matchSideEffects NvCrdValidatingName 1 22 = SideEffectNoneOnDryRun
    ∧ matchSideEffects NvCrdValidatingName 1 15 = SideEffectSome
    ∧ ∀ (whSideEffects : Option String) (expected : String),
        sideEffectCheckOk 10 whSideEffects expected = true := by
  refine ⟨by decide, by decide, ?_⟩
  intro whSideEffects expected
  simp [sideEffectCheckOk]

/-- C8 counterexample: with "old-bundle" stored for service "svc", resetting
to the empty bundle — a value that differs from the stored one — stores
nothing and returns false, refuting "stores if and only if it differs". -/
theorem resetCABundle_empty_differs_counterexample :
    (ResetCABundle "svc" "" (SetCABundle "svc" "old-bundle" emptyAdmState)).1 = false
    ∧ (ResetCABundle "svc" "" (SetCABundle "svc" "old-bundle" emptyAdmState)).2.admCaBundle "svc"
        = "old-bundle"
    ∧ ("" : String) ≠ "old-bundle" := by
  refine ⟨by decide, by decide, by decide⟩

/-- C8 (amended): `ResetCABundle` stores the new bundle if and only if it is
non-empty and differs from the currently stored value, returns true exactly
when that change occurred, and never touches the tag/echo label-key map. -/
theorem resetCABundle_spec (svcName caBundle : String) (s : AdmState) :
    ((ResetCABundle svcName caBundle s).1 = true ↔
      caBundle ≠ "" ∧ caBundle ≠ s.admCaBundle svcName)
    ∧ (ResetCABundle svcName caBundle s).2.svcLabelKeys = s.svcLabelKeys
    ∧ (ResetCABundle svcName caBundle s).2.admCaBundle svcName =
        (if (ResetCABundle svcName caBundle s).1 then caBundle else s.admCaBundle svcName) := by
  by_cases hlen : 0 < caBundle.length
  · by_cases hne : s.admCaBundle svcName = caBundle
    · simp [ResetCABundle, hne]
    · have h1 : caBundle ≠ "" := (string_length_pos caBundle).mp hlen
      have h2 : caBundle ≠ s.admCaBundle svcName := fun e => hne e.symm
      simp [ResetCABundle, hlen, bne_iff_ne.mpr hne, h1, h2]
  · have hempty : caBundle = "" := by
      by_contra hc
      exact hlen ((string_length_pos caBundle).mpr hc)
    subst hempty
    simp [ResetCABundle]

/-- C8 witness: resetting service "svc" from "old-bundle" to the non-empty,
differing value "new-bundle" reports a change. -/
theorem resetCABundle_spec_witness :
    (ResetCABundle "svc" "new-bundle" (SetCABundle "svc" "old-bundle" emptyAdmState)).1 = true :=
  (resetCABundle_spec "svc" "new-bundle" (SetCABundle "svc" "old-bundle" emptyAdmState)).1.mpr
    ⟨by decide, by decide⟩

/-- C9 counterexample: the error text " 403 forbidden" contains both the
" 403 " pattern (at position 0) and the "forbidden" pattern (at position 5),
yet the returned status is the generic webhook-service error, because the
code requires `strings.Index(err, " 403 ") > 0` — strictly positive — and the
pattern here sits at index 0. -/
theorem svcErrStatus_leading403_counterexample :
    getSvcErrStatus " 403 forbidden" = WebhookSvcStatus.admCtrlSvcErr
    ∧ strIndex " 403 forbidden" " 403 " = 0
    ∧ strIndex " 403 forbidden" "forbidden" = 5 := by
  refine ⟨by decide, by decide, by decide⟩

/-- C9 (amended): upon a store get failure, the permission-denied status is
returned exactly when each of the patterns " 403 " and "forbidden" occurs in
the error text at some strictly positive position — i.e. is contained but not
as a leading substring; otherwise the generic webhook-service error status is
returned. -/
theorem svcErrStatus_permission_iff (errText : String) :
    getSvcErrStatus errText = WebhookSvcStatus.nvPermission ↔
      ((∃ i, matchesAt errText.data (" 403 ").data i)
        ∧ ¬ matchesAt errText.data (" 403 ").data 0)
      ∧ ((∃ i, matchesAt errText.data "forbidden".data i)
        ∧ ¬ matchesAt errText.data "forbidden".data 0) := by
  rw [getSvcErrStatus, ← strIndex_pos_iff, ← strIndex_pos_iff]
  by_cases h1 : strIndex errText " 403 " > 0 <;>
    by_cases h2 : strIndex errText "forbidden" > 0 <;>
      simp [h1, h2]

/-- C9 witness: an error text carrying both patterns at positive positions is
classified as the permission-denied status. -/
theorem svcErrStatus_permission_witness :
    getSvcErrStatus "x 403 y forbidden" = WebhookSvcStatus.nvPermission :=
  (svcErrStatus_permission_iff "x 403 y forbidden").mpr
    ⟨⟨⟨1, by decide⟩, by decide⟩, ⟨⟨8, by decide⟩, by decide⟩⟩

/-- C10: calling the namespace verification entry point with a nil label map
is equivalent to calling it with an empty map — the nil map is replaced by an
empty map before any lookup, so the whole result (desired-label decisions,
resulting labels, and writes issued) coincides. -/
theorem verifyK8sNs_nil_eq_empty (p : NsPolicy) (nsName : String) :
    VerifyK8sNs p nsName none = VerifyK8sNs p nsName (some fun _ => false) := rfl

/-- C5: the desired presence of the skip label key is must-exist if and only
if admission control is enabled and the namespace is in the exact-match
allowed set or matches some wildcard pattern in the wildcard allowed set; in
every other case it is must-not-exist (never don't-care). -/
theorem skipKey_desired_iff (p : NsPolicy) (nsName : String) :
    (desiredLabelKeys p nsName NsLabelKey.skipNV = some true ↔
      p.admCtrlEnabled = true ∧
        (nsName ∈ p.allowedNamespaces ∨
          ∃ w ∈ p.allowedNamespacesWild, p.equalMatch w nsName = true))
    ∧ (desiredLabelKeys p nsName NsLabelKey.skipNV = some true
        ∨ desiredLabelKeys p nsName NsLabelKey.skipNV = some false) := by
  have hc : p.allowedNamespaces.contains nsName = true ↔ nsName ∈ p.allowedNamespaces := by
    simp
  have ha : (p.allowedNamespacesWild.any fun w => p.equalMatch w nsName) = true ↔
      ∃ w ∈ p.allowedNamespacesWild, p.equalMatch w nsName = true := by
    simp [List.any_eq_true]
  by_cases he : p.admCtrlEnabled = true
  · by_cases hcon : p.allowedNamespaces.contains nsName = true
    · have hv : desiredLabelKeys p nsName NsLabelKey.skipNV = some true := by
        simp only [desiredLabelKeys]
        rw [if_pos he, if_pos hcon]
      exact ⟨⟨fun _ => ⟨he, Or.inl (hc.mp hcon)⟩, fun _ => hv⟩, Or.inl hv⟩
    · by_cases hany : (p.allowedNamespacesWild.any fun w => p.equalMatch w nsName) = true
      · have hv : desiredLabelKeys p nsName NsLabelKey.skipNV = some true := by
          simp only [desiredLabelKeys]
          rw [if_pos he, if_neg hcon, if_pos hany]
        exact ⟨⟨fun _ => ⟨he, Or.inr (ha.mp hany)⟩, fun _ => hv⟩, Or.inl hv⟩
      · have hv : desiredLabelKeys p nsName NsLabelKey.skipNV = some false := by
          simp only [desiredLabelKeys]
          rw [if_pos he, if_neg hcon, if_neg hany]
        have hmem : nsName ∉ p.allowedNamespaces := fun hm => hcon (hc.mpr hm)
        have hnex : ¬ ∃ w ∈ p.allowedNamespacesWild, p.equalMatch w nsName = true :=
          fun hx => hany (ha.mpr hx)
        refine ⟨⟨fun ht => ?_, fun hr => ?_⟩, Or.inr hv⟩
        · rw [hv] at ht
          exact absurd ht (by simp)
        · rcases hr with ⟨-, hm | hx⟩
          · exact absurd hm hmem
          · exact absurd hx hnex
  · have hv : desiredLabelKeys p nsName NsLabelKey.skipNV = some false := by
      simp only [desiredLabelKeys]
      rw [if_neg he]
    refine ⟨⟨fun ht => ?_, fun hr => ?_⟩, Or.inr hv⟩
    · rw [hv] at ht
      exact absurd ht (by simp)
    · exact absurd hr.1 he

/-- C5 witness: with the sample policy (enabled, exact allowed set
{"allowed-ns"}), namespace "allowed-ns" gets a must-exist skip key. -/
theorem skipKey_desired_iff_witness :
    desiredLabelKeys sampleNsPolicy "allowed-ns" NsLabelKey.skipNV = some true :=
  (skipKey_desired_iff sampleNsPolicy "allowed-ns").1.mpr ⟨rfl, Or.inl (by decide)⟩

/-- After one verification pass, no non-nil desired presence disagrees with
the resulting labels. -/
theorem verifyK8sNs_result_agrees (p : NsPolicy) (nsName : String)
    (nsLabels : Option (NsLabelKey → Bool)) (k : NsLabelKey) :
    nsKeyDisagrees (desiredLabelKeys p nsName k)
      ((VerifyK8sNs p nsName nsLabels).1 k) = false := by
  simp only [VerifyK8sNs]
  split
  next hany =>
    simp only [workSingleK8sNsLabels]
    split
    next =>
      cases hd : desiredLabelKeys p nsName k with
      | some b => simp [nsKeyDisagrees, hd]
      | none => simp [nsKeyDisagrees, hd]
    next hno => exact absurd hany hno
  next hany =>
    have hf := List.any_eq_false.mp (by simpa using hany)
    have hk : k ∈ nsAllLabelKeys := by cases k <;> simp [nsAllLabelKeys]
    simpa using hf k hk

/-- C6: for every namespace and fixed policy state, running the namespace
label verification twice in succession with no intervening external change
issues zero corrective store writes on the second run; after the first run
every non-don't-care desired presence agrees with the actual presence. -/
theorem verifyK8sNs_idempotent (p : NsPolicy) (nsName : String)
    (nsLabels : Option (NsLabelKey → Bool)) :
    (VerifyK8sNs p nsName (some (VerifyK8sNs p nsName nsLabels).1)).2 = 0
    ∧ ∀ (k : NsLabelKey) (b : Bool),
        desiredLabelKeys p nsName k = some b →
        (VerifyK8sNs p nsName nsLabels).1 k = b := by
  constructor
  · have hall : (nsAllLabelKeys.any fun k =>
        nsKeyDisagrees (desiredLabelKeys p nsName k)
          ((VerifyK8sNs p nsName nsLabels).1 k)) = false := by
      apply List.any_eq_false.mpr
      intro k hk
      simp [verifyK8sNs_result_agrees p nsName nsLabels k]
    conv_lhs => rw [VerifyK8sNs]
    simp [hall]
  · intro k b hd
    have h := verifyK8sNs_result_agrees p nsName nsLabels k
    rw [hd] at h
    have h2 : b = (VerifyK8sNs p nsName nsLabels).1 k := by
      simpa [nsKeyDisagrees] using h
    exact h2.symm

/-- C6 witness: on the sample policy and namespace "allowed-ns", the second
run issues zero writes and the first run leaves the skip key present. -/
theorem verifyK8sNs_idempotent_witness :
    (VerifyK8sNs sampleNsPolicy "allowed-ns"
        (some (VerifyK8sNs sampleNsPolicy "allowed-ns" none).1)).2 = 0
    ∧ (VerifyK8sNs sampleNsPolicy "allowed-ns" none).1 NsLabelKey.skipNV = true :=
  ⟨(verifyK8sNs_idempotent sampleNsPolicy "allowed-ns" none).1,
   (verifyK8sNs_idempotent sampleNsPolicy "allowed-ns" none).2 NsLabelKey.skipNV true (by decide)⟩

/-- The per-rule build loop fails with "empty caBundle" whenever some rule's
service has an empty trust bundle in the registry. -/
theorem buildWebhooks_empty_bundle (build : WebhookInfo → K8sValidatingWebhook)
    (bundles : String → String) (l : List WebhookInfo)
    (h : ∃ wh ∈ l, bundles wh.ClientConfig.ServiceName = "") :
    buildWebhooks build bundles l = .error "empty caBundle" := by
  induction l with
  | nil => simp at h
  | cons w t ih =>
    rcases h with ⟨wh, hmem, hb⟩
    rcases List.mem_cons.mp hmem with rfl | hmem
    · rw [buildWebhooks]
      rw [if_pos (by rw [hb]; rfl)]
    · by_cases hw : (bundles w.ClientConfig.ServiceName).length = 0
      · rw [buildWebhooks, if_pos hw]
      · rw [buildWebhooks, if_neg hw, ih ⟨wh, hmem, hb⟩]

/-- C2: for every create or update operation, if any rule's service has an
empty trust bundle in the registry, the write function returns the
"empty caBundle" error and performs no store write — no add, update, or
delete call is issued for that operation, on either schema generation path. -/
theorem emptyCaBundle_blocks_write (tables : NvOpResTables) (major minor : Int)
    (bundles : String → String) (storeResp : StoreOp → Option String)
    (op resVersion : String) (info : ValidatingWebhookConfigInfo)
    (hop : op = K8sResOpCreate ∨ op = K8sResOpUpdate)
    (hempty : ∃ wh ∈ info.WebhooksInfo, bundles wh.ClientConfig.ServiceName = "") :
    configK8sAdmCtrlValidateResource tables major minor bundles storeResp op resVersion info
      = (some "empty caBundle", []) := by
  have hdel : (op == K8sResOpDelete) = false := by
    rcases hop with rfl | rfl <;> decide
  have hcu : (op == K8sResOpCreate || op == K8sResOpUpdate) = true := by
    rcases hop with rfl | rfl <;> decide
  rw [configK8sAdmCtrlValidateResource]
  rw [if_neg (by simp [hdel]), if_pos hcu]
  by_cases hv : (major == 1 && decide (minor ≥ 22)) = true
  · rw [if_pos hv, buildWebhooks_empty_bundle _ _ _ hempty]
  · rw [if_neg hv, buildWebhooks_empty_bundle _ _ _ hempty]

/-- C2 witness: a one-rule create with an empty registry fails with
"empty caBundle" and issues no store mutation. -/
theorem emptyCaBundle_blocks_write_witness :
    configK8sAdmCtrlValidateResource sampleTables 1 22 (fun _ => "") (fun _ => none)
      K8sResOpCreate "" sampleResInfo = (some "empty caBundle", []) :=
  emptyCaBundle_blocks_write sampleTables 1 22 (fun _ => "") (fun _ => none)
    K8sResOpCreate "" sampleResInfo (Or.inl rfl)
    ⟨sampleWebhookInfo, by simp [sampleResInfo], rfl⟩

/-- When neither early-skip return fires, the code's operation selection is
non-empty and coincides with the claim's truth table. -/
theorem selectOp_of_not_skip (enable : Bool) (r : AdmReadResult)
    (h : admCtrlSkipEarly enable r = false) :
    admCtrlSelectOp enable r = claimTruthTableOp enable r.k8sConfigured r.matchedCfg
    ∧ (admCtrlSelectOp enable r != "") = true := by
  rcases r with ⟨conf, matched, ver, err⟩
  revert h
  cases enable <;> cases conf <;> cases matched <;>
    simp [admCtrlSkipEarly, admCtrlSelectOp, claimTruthTableOp,
      K8sResOpCreate, K8sResOpUpdate, K8sResOpDelete]

/-- The retry loop issues at most `fuel` apply operations. -/
theorem admCtrlLoop_length_le (enable : Bool) (read : Nat → AdmReadResult)
    (applyCfg : Nat → String → String → Option String) :
    ∀ (fuel retry : Nat) (lastErr : Option String),
      ((admCtrlLoop enable read applyCfg fuel retry lastErr).2).length ≤ fuel := by
  intro fuel
  induction fuel with
  | zero =>
    intro retry lastErr
    simp [admCtrlLoop]
  | succ n ih =>
    intro retry lastErr
    rw [admCtrlLoop]
    split
    next => simp
    next =>
      split
      next =>
        cases happ : applyCfg retry (admCtrlSelectOp enable (read retry)) (read retry).verRead with
        | none => simp
        | some e =>
          simp only [List.length_cons]
          exact Nat.succ_le_succ (ih (retry + 1) (some e))
      next => exact Nat.le_trans (ih (retry + 1) (read retry).err) (Nat.le_succ n)

/-- Every operation the retry loop applies is the one the claim's truth table
selects for the read result of its attempt. -/
theorem admCtrlLoop_ops_truthTable (enable : Bool) (read : Nat → AdmReadResult)
    (applyCfg : Nat → String → String → Option String) :
    ∀ (fuel retry : Nat) (lastErr : Option String) (j : Nat) (op : String),
      ((admCtrlLoop enable read applyCfg fuel retry lastErr).2).get? j = some op →
      op = claimTruthTableOp enable (read (retry + j)).k8sConfigured
            (read (retry + j)).matchedCfg := by
  intro fuel
  induction fuel with
  | zero =>
    intro retry lastErr j op h
    simp [admCtrlLoop] at h
  | succ n ih =>
    intro retry lastErr j op h
    rw [admCtrlLoop] at h
    by_cases hskip : admCtrlSkipEarly enable (read retry) = true
    · rw [if_pos hskip] at h
      simp at h
    · have hskipf : admCtrlSkipEarly enable (read retry) = false := by
        simpa using hskip
      obtain ⟨heq, hne⟩ := selectOp_of_not_skip enable (read retry) hskipf
      rw [if_neg hskip, if_pos hne] at h
      cases happ : applyCfg retry (admCtrlSelectOp enable (read retry)) (read retry).verRead with
      | none =>
        rw [happ] at h
        cases j with
        | zero =>
          simp only [List.get?] at h
          cases h
          simpa [Nat.add_zero] using heq
        | succ j2 => simp at h
      | some e =>
        rw [happ] at h
        cases j with
        | zero =>
          simp only [List.get?] at h
          cases h
          simpa [Nat.add_zero] using heq
        | succ j2 =>
          simp only [List.get?] at h
          have h2 := ih (retry + 1) (some e) j2 op h
          rw [show retry + (j2 + 1) = retry + 1 + j2 by omega]
          exact h2

/-- Peeling one attempt off a selected-operations trace. -/
theorem selectOps_range_succ (enable : Bool) (read : Nat → AdmReadResult)
    (retry n : Nat) :
    admCtrlSelectOp enable (read retry) ::
      ((List.range n).map fun j => admCtrlSelectOp enable (read (retry + 1 + j))) =
    (List.range (n + 1)).map fun j => admCtrlSelectOp enable (read (retry + j)) := by
  rw [List.range_succ_eq_map, List.map_cons, List.map_map]
  refine congrArg₂ _ (by rw [Nat.add_zero]) ?_
  apply List.map_congr_left
  intro j hj
  simp [Function.comp]
  rw [show retry + 1 + j = retry + (j + 1) by omega]

/-- When every attempt up to `k` reaches the apply step, the first `k` applies
fail, and the apply of attempt `k` succeeds, the retry loop stops there with
(skipped = false, no error) and its trace lists the selected operation of each
of the `k + 1` attempts. -/
theorem admCtrlLoop_success_at (enable : Bool) (read : Nat → AdmReadResult)
    (applyCfg : Nat → String → String → Option String) (e : Nat → String)
    (hskips : ∀ i, admCtrlSkipEarly enable (read i) = false) :
    ∀ (k fuel retry : Nat) (lastErr : Option String), k < fuel →
      (∀ j, j < k → ∀ op v, applyCfg (retry + j) op v = some (e (retry + j))) →
      applyCfg (retry + k) (admCtrlSelectOp enable (read (retry + k)))
        (read (retry + k)).verRead = none →
      admCtrlLoop enable read applyCfg fuel retry lastErr =
        ((false, none),
         (List.range (k + 1)).map fun j => admCtrlSelectOp enable (read (retry + j))) := by
  intro k
  induction k with
  | zero =>
    intro fuel retry lastErr hk hpre hsucc
    cases fuel with
    | zero => omega
    | succ n =>
      obtain ⟨_, hne⟩ := selectOp_of_not_skip enable (read retry) (hskips retry)
      rw [show retry + 0 = retry from rfl] at hsucc
      rw [admCtrlLoop, if_neg (by simp [hskips retry]), if_pos hne, hsucc]
      rfl
  | succ k2 ih =>
    intro fuel retry lastErr hk hpre hsucc
    cases fuel with
    | zero => omega
    | succ n =>
      obtain ⟨_, hne⟩ := selectOp_of_not_skip enable (read retry) (hskips retry)
      rw [admCtrlLoop, if_neg (by simp [hskips retry]), if_pos hne]
      have hp0 := hpre 0 (Nat.succ_pos k2)
      rw [show retry + 0 = retry from rfl] at hp0
      simp only [hp0]
      rw [ih n (retry + 1) (some (e retry)) (by omega)
        (fun j hj op v => by
          have h2 := hpre (j + 1) (Nat.succ_lt_succ hj) op v
          rwa [show retry + (j + 1) = retry + 1 + j by omega] at h2)
        (by
          have h2 := hsucc
          rwa [show retry + (k2 + 1) = retry + 1 + k2 by omega] at h2)]
      exact Prod.ext rfl (selectOps_range_succ enable read retry (k2 + 1))

/-- When every read reaches the apply step and every apply fails, the retry
loop consumes its whole budget, returns the last error, and its operation
trace lists one selected operation per attempt. -/
theorem admCtrlLoop_all_fail (enable : Bool) (read : Nat → AdmReadResult)
    (applyCfg : Nat → String → String → Option String) (e : Nat → String)
    (hskips : ∀ i, admCtrlSkipEarly enable (read i) = false)
    (happlies : ∀ i op v, applyCfg i op v = some (e i)) :
    ∀ (fuel retry : Nat) (lastErr : Option String),
      admCtrlLoop enable read applyCfg fuel retry lastErr =
        ((true, if fuel = 0 then lastErr else some (e (retry + fuel - 1))),
         (List.range fuel).map fun j => admCtrlSelectOp enable (read (retry + j))) := by
  intro fuel
  induction fuel with
  | zero =>
    intro retry lastErr
    simp [admCtrlLoop]
  | succ n ih =>
    intro retry lastErr
    obtain ⟨heq, hne⟩ := selectOp_of_not_skip enable (read retry) (hskips retry)
    rw [admCtrlLoop, if_neg (by simp [hskips retry]), if_pos hne]
    simp only [happlies retry]
    rw [ih (retry + 1) (some (e retry))]
    refine Prod.ext (Prod.ext rfl ?_) ?_
    · by_cases hn0 : n = 0
      · subst hn0
        simp
      · simp only [hn0, if_false, Nat.succ_ne_zero]
        have h1 : retry + 1 + n - 1 = retry + (n + 1) - 1 := by omega
        rw [h1]
    · exact selectOps_range_succ enable read retry n

/-- C3: the top-level reconcile loop makes at most 3 attempts; every applied
operation is selected by the truth table (registered and disabled → delete;
enabled and not registered → create; enabled, registered and not matched →
update) for that attempt's fresh read; a successful apply stops the loop and
returns skipped = false with no error after that single operation; and when
every attempt's apply fails, the loop stops after exactly 3 operations and
returns with the last underlying error. -/
theorem configK8sAdmissionControl_spec (st : CLUSAdmCtrlState)
    (read : Nat → AdmReadResult)
    (applyCfg : Nat → String → String → Option String)
    (hUri : st.Uri ≠ "") :
    ((ConfigK8sAdmissionControl (some st) read applyCfg).2.length ≤ 3)
    ∧ (∀ (j : Nat) (op : String),
        (ConfigK8sAdmissionControl (some st) read applyCfg).2.get? j = some op →
        op = claimTruthTableOp st.Enable (read j).k8sConfigured (read j).matchedCfg)
    ∧ (∀ (k : Nat) (e : Nat → String), k < 3 →
        (∀ i, admCtrlSkipEarly st.Enable (read i) = false) →
        (∀ j, j < k → ∀ op v, applyCfg j op v = some (e j)) →
        applyCfg k (admCtrlSelectOp st.Enable (read k)) (read k).verRead = none →
        ConfigK8sAdmissionControl (some st) read applyCfg =
          ((false, none),
           (List.range (k + 1)).map fun j =>
             claimTruthTableOp st.Enable (read j).k8sConfigured (read j).matchedCfg))
    ∧ (∀ e : Nat → String,
        (∀ i, admCtrlSkipEarly st.Enable (read i) = false) →
        (∀ i op v, applyCfg i op v = some (e i)) →
        ConfigK8sAdmissionControl (some st) read applyCfg =
          ((true, some (e 2)),
           [claimTruthTableOp st.Enable (read 0).k8sConfigured (read 0).matchedCfg,
            claimTruthTableOp st.Enable (read 1).k8sConfigured (read 1).matchedCfg,
            claimTruthTableOp st.Enable (read 2).k8sConfigured (read 2).matchedCfg])) := by
  have hn : ¬ (st.Uri == "") = true := by
    simp [hUri]
  have hcfg : ConfigK8sAdmissionControl (some st) read applyCfg =
      admCtrlLoop st.Enable read applyCfg 3 0 none := by
    rw [ConfigK8sAdmissionControl, if_neg hn]
  refine ⟨?_, ?_, ?_, ?_⟩
  · rw [hcfg]
    exact admCtrlLoop_length_le st.Enable read applyCfg 3 0 none
  · intro j op h
    rw [hcfg] at h
    have h2 := admCtrlLoop_ops_truthTable st.Enable read applyCfg 3 0 none j op h
    simpa [Nat.zero_add] using h2
  · intro k e hk hskips hpre hsucc
    rw [hcfg, admCtrlLoop_success_at st.Enable read applyCfg e hskips k 3 0 none hk
      (fun j hj op v => by simpa using hpre j hj op v)
      (by simpa using hsucc)]
    refine Prod.ext rfl ?_
    apply List.map_congr_left
    intro j hj
    obtain ⟨heqj, _⟩ := selectOp_of_not_skip st.Enable (read j) (hskips j)
    simpa using heqj
  · intro e hskips happlies
    obtain ⟨heq0, _⟩ := selectOp_of_not_skip st.Enable (read 0) (hskips 0)
    obtain ⟨heq1, _⟩ := selectOp_of_not_skip st.Enable (read 1) (hskips 1)
    obtain ⟨heq2, _⟩ := selectOp_of_not_skip st.Enable (read 2) (hskips 2)
    rw [hcfg, admCtrlLoop_all_fail st.Enable read applyCfg e hskips happlies 3 0 none]
    have hr : List.range 3 = [0, 1, 2] := rfl
    rw [hr]
    simp only [List.map_cons, List.map_nil, Nat.zero_add]
    rw [heq0, heq1, heq2]
    rfl

/-- C3 witness: with the resource permanently absent, policy enabled, and
every apply failing with "boom", the loop applies create three times and
returns the last error. -/
theorem configK8sAdmissionControl_spec_witness :
    ConfigK8sAdmissionControl (some ⟨true, "/v1"⟩) sampleAbsentRead sampleFailApply =
      ((true, some "boom"), [K8sResOpCreate, K8sResOpCreate, K8sResOpCreate]) := by
  have h := (configK8sAdmissionControl_spec ⟨true, "/v1"⟩ sampleAbsentRead sampleFailApply
    (by decide)).2.2.2 (fun _ => "boom") (fun _ => rfl) (fun _ _ _ => rfl)
  simpa [claimTruthTableOp, sampleAbsentRead, K8sResOpCreate] using h

/-- C4: for every gate specification environment, reconciling with the policy
disabled while the resource is not registered in the store returns
skipped = true with no error and issues no store mutation (the operation
trace is empty). -/
theorem reconcile_disabled_unregistered_noop (uri : String)
    (read : Nat → AdmReadResult)
    (applyCfg : Nat → String → String → Option String)
    (hreg : (read 0).k8sConfigured = false) :
    ConfigK8sAdmissionControl (some ⟨false, uri⟩) read applyCfg = ((true, none), []) := by
  rw [ConfigK8sAdmissionControl]
  by_cases hu : (uri == "") = true
  · rw [if_pos hu]
  · rw [if_neg hu, show (3 : Nat) = 2 + 1 from rfl, admCtrlLoop]
    rw [if_pos (by simp [admCtrlSkipEarly, hreg])]

/-- C4 witness: disabled policy with an absent resource is a skipped no-op. -/
theorem reconcile_disabled_unregistered_noop_witness :
    ConfigK8sAdmissionControl (some ⟨false, "/v1"⟩) sampleAbsentRead sampleFailApply
      = ((true, none), []) :=
  reconcile_disabled_unregistered_noop "/v1" sampleAbsentRead sampleFailApply rfl

/-- Bridge from the claim's propositional "not a successful read" to the
code's boolean success test. -/
theorem pollSuccessCond_false (err : Option String) (lt le tag : String)
    (h : ¬(err = none ∧ lt = tag ∧ le = tag)) :
    (err == none && lt == tag && le == tag) = false := by
  cases hb : (err == none && lt == tag && le == tag) with
  | false => rfl
  | true =>
    simp only [Bool.and_eq_true, beq_iff_eq] at hb
    exact absurd ⟨hb.1.1, hb.1.2, hb.2⟩ h

/-- When no poll within the budget reads a successful echo and no signal
arrives, the loop consumes the entire budget and fails. -/
theorem testPollLoop_exhaust (tag : String) (env : Nat → PollEvent) :
    ∀ (fuel i : Nat),
      (∀ j, j < fuel → ∃ err lt le, env (i + j) = .tick err lt le ∧ le ≠ tag) →
      testPollLoop tag env i fuel = (TestFailed, fuel) := by
  intro fuel
  induction fuel with
  | zero =>
    intro i _
    rfl
  | succ n ih =>
    intro i h
    obtain ⟨err, lt, le, henv, hne⟩ := h 0 (Nat.succ_pos n)
    rw [show i + 0 = i from rfl] at henv
    rw [testPollLoop]
    simp only [henv]
    have hle : (le == tag) = false := by simp [hne]
    rw [if_neg (by simp [hle])]
    rw [ih (i + 1) (fun j hj => by
      have h2 := h (j + 1) (Nat.succ_lt_succ hj)
      rwa [show i + (j + 1) = i + 1 + j by omega] at h2)]

/-- A successful read on poll `k` (earlier polls unsuccessful ticks) makes the
loop succeed on that poll, consuming exactly `k + 1` events. -/
theorem testPollLoop_success (tag : String) (env : Nat → PollEvent) :
    ∀ (k fuel i : Nat), k < fuel →
      (∀ j, j < k → ∃ err lt le, env (i + j) = .tick err lt le ∧
        (err == none && lt == tag && le == tag) = false) →
      env (i + k) = .tick none tag tag →
      testPollLoop tag env i fuel = (TestSucceeded, k + 1) := by
  intro k
  induction k with
  | zero =>
    intro fuel i hk hpre henv
    cases fuel with
    | zero => omega
    | succ n =>
      rw [show i + 0 = i from rfl] at henv
      rw [testPollLoop]
      simp only [henv]
      rw [if_pos (by simp)]
  | succ k2 ih =>
    intro fuel i hk hpre henv
    cases fuel with
    | zero => omega
    | succ n =>
      obtain ⟨err, lt, le, henv0, hcond⟩ := hpre 0 (Nat.succ_pos k2)
      rw [show i + 0 = i from rfl] at henv0
      rw [testPollLoop]
      simp only [henv0]
      rw [if_neg (by simp [hcond])]
      rw [ih n (i + 1) (by omega)
        (fun j hj => by
          have h2 := hpre (j + 1) (Nat.succ_lt_succ hj)
          rwa [show i + (j + 1) = i + 1 + j by omega] at h2)
        (by rwa [show i + 1 + k2 = i + (k2 + 1) by omega])]

/-- A shutdown signal on poll `k` (earlier polls unsuccessful ticks) aborts
the loop on that poll, consuming exactly `k + 1` events. -/
theorem testPollLoop_abort (tag : String) (env : Nat → PollEvent) :
    ∀ (k fuel i : Nat), k < fuel →
      (∀ j, j < k → ∃ err lt le, env (i + j) = .tick err lt le ∧
        (err == none && lt == tag && le == tag) = false) →
      env (i + k) = .sig →
      testPollLoop tag env i fuel = (TestAborted, k + 1) := by
  intro k
  induction k with
  | zero =>
    intro fuel i hk hpre henv
    cases fuel with
    | zero => omega
    | succ n =>
      rw [show i + 0 = i from rfl] at henv
      rw [testPollLoop]
      simp only [henv]
  | succ k2 ih =>
    intro fuel i hk hpre henv
    cases fuel with
    | zero => omega
    | succ n =>
      obtain ⟨err, lt, le, henv0, hcond⟩ := hpre 0 (Nat.succ_pos k2)
      rw [show i + 0 = i from rfl] at henv0
      rw [testPollLoop]
      simp only [henv0]
      rw [if_neg (by simp [hcond])]
      rw [ih n (i + 1) (by omega)
        (fun j hj => by
          have h2 := hpre (j + 1) (Nat.succ_lt_succ hj)
          rwa [show i + (j + 1) = i + 1 + j by omega] at h2)
        (by rwa [show i + 1 + k2 = i + (k2 + 1) by omega])]

/-- C7: the initiator's poll phase has budget 10 and three distinct terminal
outcomes: if the echo label never matches the written tag (and no signal
arrives) it fails after exactly 10 polls; if the read on the k-th poll
(k ≤ 10, counted from 1) echoes the tag it succeeds on that poll and not
later, consuming exactly k events; a shutdown signal observed mid-poll aborts
on that poll; and the three outcome codes are pairwise distinct. -/
theorem testAdmWebhook_poll_outcomes :
    (TestSucceeded ≠ TestFailed ∧ TestSucceeded ≠ TestAborted ∧ TestFailed ≠ TestAborted)
    ∧ (∀ (tag : String) (env : Nat → PollEvent),
        (∀ i, i < 10 → ∃ err lt le, env i = .tick err lt le ∧ le ≠ tag) →
        TestAdmWebhookPoll tag env = (TestFailed, 10))
    ∧ (∀ (tag : String) (env : Nat → PollEvent) (k : Nat), k < 10 →
        (∀ j, j < k → ∃ err lt le, env j = .tick err lt le ∧
          ¬(err = none ∧ lt = tag ∧ le = tag)) →
        env k = .tick none tag tag →
        TestAdmWebhookPoll tag env = (TestSucceeded, k + 1))
    ∧ (∀ (tag : String) (env : Nat → PollEvent) (k : Nat), k < 10 →
        (∀ j, j < k → ∃ err lt le, env j = .tick err lt le ∧
          ¬(err = none ∧ lt = tag ∧ le = tag)) →
        env k = .sig →
        TestAdmWebhookPoll tag env = (TestAborted, k + 1)) := by
  refine ⟨⟨by decide, by decide, by decide⟩, ?_, ?_, ?_⟩
  · intro tag env h
    exact testPollLoop_exhaust tag env 10 0 (fun j hj => by simpa using h j hj)
  · intro tag env k hk hpre henv
    exact testPollLoop_success tag env k 10 0 hk
      (fun j hj => by
        obtain ⟨err, lt, le, he, hns⟩ := hpre j hj
        exact ⟨err, lt, le, by simpa using he, pollSuccessCond_false err lt le tag hns⟩)
      (by simpa using henv)
  · intro tag env k hk hpre henv
    exact testPollLoop_abort tag env k 10 0 hk
      (fun j hj => by
        obtain ⟨err, lt, le, he, hns⟩ := hpre j hj
        exact ⟨err, lt, le, by simpa using he, pollSuccessCond_false err lt le tag hns⟩)
      (by simpa using henv)

/-- C7 witness: a responder echoing from the third poll on yields success on
poll 3 exactly. -/
theorem testAdmWebhook_poll_outcomes_witness :
    TestAdmWebhookPoll "tag1"
      (fun i => if i < 2 then PollEvent.tick none "tag1" ""
                else PollEvent.tick none "tag1" "tag1")
      = (TestSucceeded, 3) :=
  testAdmWebhook_poll_outcomes.2.2.1 "tag1"
    (fun i => if i < 2 then PollEvent.tick none "tag1" ""
              else PollEvent.tick none "tag1" "tag1")
    2 (by omega)
    (fun j hj => ⟨none, "tag1", "", by simp [hj], by simp⟩)
    (by simp)

end NvAdmission
